import Mathlib

/-!
Verification of the MEDLINE/PubMed citation parser (`pubmed_parser/medline_parser.py`)
against its natural-language specification.

The Python source walks an lxml XML tree.  We embed the tree shallowly:
an element has a tag, an attribute list, an optional text (`.text`, which is
`None` in Python when the element has no text node) and a list of children.
Tail text is not modelled; no extractor in the source reads `.tail` directly.

Fallible Python code (attribute access on `None`, `str + None`, list-index
out of range, `lxml` type checks) is embedded in the `Except PyErr` monad.
-/

namespace PubmedParser

/-- Python exception kinds raised by the extraction layer. -/
inductive PyErr where
  | attributeError
  | typeError
  | indexError

/-- Shallow model of an lxml element: tag, attributes, optional text, children. -/
inductive Elem where
  | node (tag : String) (attrs : List (String × String)) (text : Option String)
      (children : List Elem)

abbrev EP (α : Type) := Except PyErr α

def Elem.tag : Elem → String
  | .node t _ _ _ => t

def Elem.attrs : Elem → List (String × String)
  | .node _ a _ _ => a

def Elem.text : Elem → Option String
  | .node _ _ tx _ => tx

def Elem.children : Elem → List Elem
  | .node _ _ _ cs => cs

/-- `e.attrib.get(key, default)`. -/
def attrD (e : Elem) (key dflt : String) : String :=
  match e.attrs.lookup key with
  | some v => v
  | none => dflt

/-- `e.attrib.get(key)` (no default: `None` when absent). -/
def attr? (e : Elem) (key : String) : Option String :=
  e.attrs.lookup key

/-- `e.find(tag)` for a single path segment: first child with the given tag. -/
def findChild (e : Elem) (t : String) : Option Elem :=
  e.children.find? (fun c => c.tag == t)

/-- `e.findall(tag)` for a single path segment: all children with the given tag. -/
def findAllChild (e : Elem) (t : String) : List Elem :=
  e.children.filter (fun c => c.tag == t)

/-- `e.findall("a/b/…")`: all elements reached by following the child path,
in document order. -/
def findAllPath (e : Elem) : List String → List Elem
  | [] => [e]
  | t :: rest => (findAllChild e t).flatMap (fun c => findAllPath c rest)

/-- `e.find("a/b/…")`: first element matching the path in document order. -/
def findPath (e : Elem) (p : List String) : Option Elem :=
  (findAllPath e p).head?

/-- `parent.find('Tag[@Attr="val"]')`: first child with the tag whose
attribute equals the value. -/
def findChildAttr (e : Elem) (t a v : String) : Option Elem :=
  e.children.find? (fun c => c.tag == t && c.attrs.lookup a == some v)

/-- All proper descendants of an element, in document (pre)order. -/
def Elem.desc : Elem → List Elem
  | .node _ _ _ cs => descForest cs
where
  /-- Preorder listing of a forest together with all its descendants. -/
  descForest : List Elem → List Elem
  | [] => []
  | c :: cs => c :: (Elem.desc c ++ descForest cs)

/-- `tree.findall(".//a/b")`: elements below the root (root excluded, as with
`ElementTree` path semantics) whose final segments match the path. -/
def findAllDesc (root : Elem) : List String → List Elem
  | [] => []
  | t :: rest =>
      ((Elem.desc root).filter (fun e => e.tag == t)).flatMap
        (fun e => findAllPath e rest)

/-- lxml element truthiness: an element is truthy iff it has children;
`None` is falsy. -/
def truthy : Option Elem → Bool
  | none => false
  | some e => !e.children.isEmpty

/-- Python `s.strip()`: drop leading and trailing whitespace. -/
def pyStrip (s : String) : String :=
  String.mk
    (((s.data.dropWhile Char.isWhitespace).reverse.dropWhile
        Char.isWhitespace).reverse)

/-- `pat` occurs as a contiguous run inside the character list (Python
`pat in s`). -/
def isSubListOf (pat : List Char) : List Char → Bool
  | [] => pat.isEmpty
  | c :: rest => pat.isPrefixOf (c :: rest) || isSubListOf pat rest

/-- Python `s.replace(pat, rep)` on character lists: replace non-overlapping
occurrences left to right (for a non-empty `pat`, the only way it is used).
Each step consumes at least one character of the subject, so fuel equal to
the subject's length is always enough. -/
def replaceList (pat rep : List Char) : Nat → List Char → List Char
  | _, [] => []
  | 0, l => l
  | fuel + 1, c :: rest =>
      if !pat.isEmpty && pat.isPrefixOf (c :: rest) then
        rep ++ replaceList pat rep fuel (rest.drop (pat.length - 1))
      else
        c :: replaceList pat rep fuel rest

/-- Python `s.replace(pat, rep)`. -/
def pyReplace (s pat rep : String) : String :=
  String.mk (replaceList pat.data rep.data s.data.length s.data)

/-- Python `x.strip()` where `x` is `e.text`: `AttributeError` when the text
is `None`. -/
def stripText (o : Option String) : EP String :=
  match o with
  | none => .error .attributeError
  | some s => .ok (pyStrip s)

/-- Python `prefix + x` inside string concatenation with `x = e.text`:
`TypeError` when the text is `None`. -/
def textOrTypeError (e : Elem) : EP String :=
  match e.text with
  | none => .error .typeError
  | some s => .ok s

/-- Python `x or ""` for an optional string (`None` and `""` both give `""`). -/
def orEmpty (o : Option String) : String :=
  match o with
  | none => ""
  | some s => s

/-- Python values stored in the produced record dictionaries. -/
inductive PyVal where
  | vStr (s : String)
  | vNone
  | vNan
  | vBool (b : Bool)
  | vElem (e : Elem)
  | vList (xs : List PyVal)
  | vDict (kvs : List (String × PyVal))

abbrev PyDict := List (String × PyVal)

/-- Lift an optional string to a Python value (`None` ↦ `vNone`). -/
def pyOfOpt : Option String → PyVal
  | none => .vNone
  | some s => .vStr s

/-- Python `d[k]`-style lookup used through `d.get`: first binding wins. -/
def pyLookup (k : String) : PyDict → Option PyVal
  | [] => none
  | (k', v) :: rest => if k' == k then some v else pyLookup k rest

/-- Python `d.get(k, default)`. -/
def pyGetD (d : PyDict) (k : String) (dflt : PyVal) : PyVal :=
  match pyLookup k d with
  | some v => v
  | none => dflt

/-- Python `d.get(k)` (default `None`). -/
def pyGet (d : PyDict) (k : String) : PyVal :=
  pyGetD d k .vNone

/-- A Python value used where `str` is required (`"".join`, `str + _`):
anything but a string raises `TypeError`. -/
def pyAsStr : PyVal → EP String
  | .vStr s => .ok s
  | _ => .error .typeError

/-- Python `sep.join(xs)` over possibly non-string values. -/
def pyJoin (sep : String) (xs : List PyVal) : EP String := do
  let ss ← xs.mapM pyAsStr
  pure (String.intercalate sep ss)

/-- `"".join(filter(None, parts))`-style join of string parts, dropping the
falsy ones (`None` and `""`). -/
def joinTruthy (sep : String) (xs : List (Option String)) : String :=
  String.intercalate sep (((xs.filterMap id).filter (fun s => s ≠ "")))

/-- Month-abbreviation canonicalization table. -/
def monthAbbrTable : List (String × String) :=
  [("Jan", "01"), ("Feb", "02"), ("Mar", "03"), ("Apr", "04"),
   ("May", "05"), ("Jun", "06"), ("Jul", "07"), ("Aug", "08"),
   ("Sep", "09"), ("Oct", "10"), ("Nov", "11"), ("Dec", "12")]

/-- Modelled from the spec: `month_or_day_formater` lives in
`pubmed_parser/utils.py`, which is not part of the provided sources.  Per the
spec (§4.3) the shared token formatter passes numeric strings through
zero-padded and maps month names/abbreviations to two-digit numeric form;
other tokens are not canonicalizable (the caller falls back to coarser
granularity, so we model that as `none`). -/
def month_or_day_formater (tok : String) : Option String :=
  match monthAbbrTable.lookup tok with
  | some m => some m
  | none =>
      if tok ≠ "" && tok.data.all Char.isDigit then
        some (if tok.length == 1 then "0" ++ tok else tok)
      else
        none

/-- `re.findall(r"\d{4}", s)` restricted to its first match: the leftmost run
of four consecutive digits, if any. -/
def firstFourDigitRun (s : String) : Option String :=
  go s.data
where
  go : List Char → Option String
  | [] => none
  | c :: rest =>
      let four := (c :: rest).take 4
      if four.length == 4 && four.all Char.isDigit then some (String.mk four)
      else go rest

/-- `month_or_day_formater(el.text)`: the real call receives `el.text`, so a
text-less element makes the formatter choke on `None` (modelled `TypeError`). -/
def fmtText (o : Option String) : EP (Option String) :=
  match o with
  | none => .error .typeError
  | some s => .ok (month_or_day_formater s)

/-- `get_date_info(date_xml, year_info_only, parse_time=False)`
(medline_parser.py lines 530-589).  The returned value is `Optional[str]`
in Python: the `Year` branch can return `Year.text`, which may be `None`. -/
def get_date_info (date_xml : Elem) (year_info_only : Bool)
    (parse_time : Bool := false) : EP (Option String) := do
  match findChild date_xml "Year" with
  | some yearEl =>
      let year := yearEl.text
      if year_info_only then
        pure year
      else do
        let (month, day, hour, minute) ←
          match findChild date_xml "Month" with
          | none => pure ((none : Option String), (none : Option String),
              (none : Option String), (none : Option String))
          | some monthEl => do
              let m ← fmtText monthEl.text
              match findChild date_xml "Day" with
              | none => pure (m, none, none, none)
              | some dayEl => do
                  let d ← fmtText dayEl.text
                  match findChild date_xml "Hour" with
                  | none => pure (m, d, none, none)
                  | some hourEl => do
                      let h ← fmtText hourEl.text
                      match findChild date_xml "Minute" with
                      | none => pure (m, d, h, none)
                      | some minuteEl => do
                          let mi ← fmtText minuteEl.text
                          pure (m, d, h, mi)
        match month with
        | none => pure year
        | some _ =>
            let date := joinTruthy "-" [year, month, day]
            if parse_time && hour.isSome then
              let time := joinTruthy ":" [hour, minute]
              pure (some (date ++ " " ++ time))
            else
              pure (some date)
  | none =>
      match findChild date_xml "MedlineDate" with
      | some mdEl =>
          match mdEl.text with
          | none => .error .typeError
          | some t => pure (some (orEmpty (firstFourDigitRun t)))
      | none => pure (some "")

/-- `parse_pmid` (lines 13-44). The primary branch returns `PMID.text` raw,
which is `None` for a text-less element. -/
def parse_pmid (pubmed_article : Elem) : EP (Option String) := do
  let some medline := findChild pubmed_article "MedlineCitation"
    | .error .attributeError
  match findChild medline "PMID" with
  | some p => pure p.text
  | none =>
      match findPath pubmed_article ["PubmedData", "ArticleIdList"] with
      | some article_ids =>
          match findChildAttr article_ids "ArticleId" "IdType" "pmid" with
          | some pmid =>
              match pmid.text with
              | some t => pure (some (pyStrip t))
              | none => pure (some "")
          | none => pure (some "")
      | none => pure (some "")

/-- The `for e in elocation_ids:` loop of `parse_doi` (lines 66-67): each
iteration replaces `doi` outright — `(e.text.strip() or "")` when the entry is
typed `doi` (where `s or ""` is the identity on an already-stripped string),
`""` otherwise — so the last iteration decides the result. -/
def doiElocLoop : String → List Elem → EP String
  | acc, [] => .ok acc
  | _, e :: rest =>
      if attrD e "EIdType" "" == "doi" then do
        let s ← stripText e.text
        doiElocLoop s rest
      else
        doiElocLoop "" rest

/-- `parse_doi` (lines 47-79). -/
def parse_doi (pubmed_article : Elem) : EP String := do
  let some medline := findChild pubmed_article "MedlineCitation"
    | .error .attributeError
  let some article := findChild medline "Article" | .error .attributeError
  let elocation_ids := findAllChild article "ELocationID"
  if elocation_ids.length > 0 then
    doiElocLoop "" elocation_ids
  else
    match findPath pubmed_article ["PubmedData", "ArticleIdList"] with
    | some article_ids =>
        match findChildAttr article_ids "ArticleId" "IdType" "doi" with
        | some doi => pure (match doi.text with | some t => pyStrip t | none => "")
        | none => pure ""
    | none => pure ""

/-- `parse_elocation_ids` (lines 82-117). `found_doi` is set by the same loop
that builds the entries; a crash while building dominates, so computing the
flag with `any` is equivalent. -/
def parse_elocation_ids (pubmed_article : Elem) : EP (List PyDict) := do
  let some medline := findChild pubmed_article "MedlineCitation"
    | .error .attributeError
  let some article := findChild medline "Article" | .error .attributeError
  let elocation_ids_xml := findAllChild article "ELocationID"
  let found_doi := elocation_ids_xml.any (fun e => attr? e "EIdType" == some "doi")
  let elocation_ids ← elocation_ids_xml.mapM (fun e => do
      let s ← stripText e.text
      pure [("type", pyOfOpt (attr? e "EIdType")), ("ELocationID", PyVal.vStr s)])
  if !found_doi then
    match findPath pubmed_article ["PubmedData", "ArticleIdList"] with
    | some article_ids =>
        match findChildAttr article_ids "ArticleId" "IdType" "doi" with
        | some doi => do
            let s ← stripText doi.text
            if s ≠ "" then
              pure (elocation_ids ++
                [[("type", PyVal.vStr "doi"), ("ELocationID", PyVal.vStr s)]])
            else
              pure elocation_ids
        | none => pure elocation_ids
    | none => pure elocation_ids
  else
    pure elocation_ids

/-- State of the four lists accumulated by the `parse_mesh_info` loop. -/
structure MeshLists where
  terms : List String
  subheadings : List String
  majors : List String
  fulls : List String

/-- Body of the inner `for subheading in subheadings:` loop of
`parse_mesh_info` (lines 194-211): subheadings and qualifier-derived major
topics are appended with a membership check (first occurrence wins); the full
term for this qualifier is appended unconditionally. -/
def qualStep (dUI dText : String) (st : MeshLists) (subheading : Elem) :
    EP MeshLists := do
  let qText ← textOrTypeError subheading
  let subheading_text := attrD subheading "UI" "" ++ ":" ++ qText
  let subs :=
    if subheading_text ∈ st.subheadings then st.subheadings
    else st.subheadings ++ [subheading_text]
  let majors :=
    if attrD subheading "MajorTopicYN" "N" == "Y" then
      if subheading_text ∈ st.majors then st.majors
      else st.majors ++ [subheading_text]
    else st.majors
  let full := dUI ++ "/" ++ attrD subheading "UI" "" ++ ":" ++ dText ++ "/"
      ++ qText
      ++ (if attrD subheading "MajorTopicYN" "N" == "Y" then "*" else "")
  pure { st with subheadings := subs, majors := majors,
                 fulls := st.fulls ++ [full] }

/-- Body of the `for mesh_heading in mesh.getchildren():` loop of
`parse_mesh_info` (lines 183-225).  Note the qualifier-less branch appends to
the major-topics list without a membership check. -/
def meshStep (st : MeshLists) (mesh_heading : Elem) : EP MeshLists := do
  let some mesh_term := findChild mesh_heading "DescriptorName"
    | .error .attributeError
  let subheadings := findAllChild mesh_heading "QualifierName"
  let dText ← textOrTypeError mesh_term
  let dUI := attrD mesh_term "UI" ""
  let st := { st with terms := st.terms ++ [dUI ++ ":" ++ dText] }
  if subheadings.length > 0 then
    subheadings.foldlM (qualStep dUI dText) st
  else
    let majors :=
      if attrD mesh_term "MajorTopicYN" "N" == "Y" then
        st.majors ++ [dUI ++ ":" ++ dText]
      else st.majors
    let full := dUI ++ ":" ++ dText
        ++ (if attrD mesh_term "MajorTopicYN" "N" == "Y" then "*" else "")
    pure { st with majors := majors, fulls := st.fulls ++ [full] }

/-- The four derived MeSH strings (the dictionary returned by
`parse_mesh_info`, keys `mesh_terms`, `mesh_subheadings`, `mesh_major_topics`,
`mesh_full_terms`). -/
structure MeshOut where
  mesh_terms : String
  mesh_subheadings : String
  mesh_major_topics : String
  mesh_full_terms : String

/-- `parse_mesh_info` (lines 149-241). -/
def parse_mesh_info (medline : Elem) : EP MeshOut := do
  match findChild medline "MeshHeadingList" with
  | some mesh => do
      let st ← mesh.children.foldlM meshStep ⟨[], [], [], []⟩
      pure ⟨String.intercalate "; " st.terms,
            String.intercalate "; " st.subheadings,
            String.intercalate "; " st.majors,
            String.intercalate "; " st.fulls⟩
  | none => pure ⟨"", "", "", ""⟩

/-- `parse_publication_types` (lines 244-268):
`publication_type.text.strip()` raises on a text-less element; the trailing
`or ""` is the identity on an already-stripped string. -/
def parse_publication_types (medline : Elem) : EP String := do
  match findPath medline ["Article", "PublicationTypeList"] with
  | some ptl => do
      let pts ← (findAllChild ptl "PublicationType").mapM (fun pt => do
          let s ← stripText pt.text
          pure (attrD pt "UI" "" ++ ":" ++ s))
      pure (String.intercalate "; " pts)
  | none => pure ""

/-- `parse_keywords` (lines 271-293): keywords with a `None` text are skipped
by the explicit guard. -/
def parse_keywords (medline : Elem) : String :=
  match findChild medline "KeywordList" with
  | some kl =>
      String.intercalate "; " ((findAllChild kl "Keyword").filterMap Elem.text)
  | none => ""

/-- `parse_chemical_list` (lines 296-323). -/
def parse_chemical_list (medline : Elem) : EP String := do
  match findChild medline "ChemicalList" with
  | some chemicals => do
      let items ← (findAllChild chemicals "Chemical").mapM (fun chemical => do
          let some registry_number := findChild chemical "RegistryNumber"
            | Except.error PyErr.attributeError
          let rn ← stripText registry_number.text
          let some substance_name := findChild chemical "NameOfSubstance"
            | Except.error PyErr.attributeError
          let sn ← stripText substance_name.text
          pure (rn ++ ":" ++ attrD substance_name "UI" "" ++ ":" ++ sn))
      pure (String.intercalate "; " items)
  | none => pure ""

/-- Python `"PMC" in t`. -/
def containsPMC (t : String) : Bool :=
  isSubListOf "PMC".data t.data

/-- `parse_other_id` (lines 326-351), as the pair `(pmc, other_id)` that forms
the returned dictionary `{"pmc": …, "other_id": …}`.  `"PMC" in oid.text`
raises `TypeError` when the text is `None`; the last PMC-bearing id wins. -/
def parse_other_id (medline : Elem) : EP (String × String) := do
  let oids := findAllChild medline "OtherID"
  let (pmc, others) ← oids.foldlM
    (fun (acc : String × List String) oid =>
      match oid.text with
      | none => Except.error PyErr.typeError
      | some t =>
          if containsPMC t then pure (t, acc.2) else pure (acc.1, acc.2 ++ [t]))
    ("", ([] : List String))
  pure (pmc, String.intercalate "; " others)

/-- The dictionary returned by `parse_journal_info`, as a structure. -/
structure JournalInfo where
  medline_ta : String
  nlm_unique_id : String
  issn_linking : Option String
  country : String

/-- `parse_journal_info` (lines 354-399).  `ISSNLinking` (line 381) has no
`or ""`, so its value can be Python `None` when the element has no text. -/
def parse_journal_info (medline : Elem) : JournalInfo :=
  match findChild medline "MedlineJournalInfo" with
  | some ji =>
      let medline_ta :=
        match findChild ji "MedlineTA" with
        | some e => orEmpty e.text
        | none => ""
      let nlm_unique_id :=
        match findChild ji "NlmUniqueID" with
        | some e => orEmpty e.text
        | none => ""
      let issn_linking : Option String :=
        match findChild ji "ISSNLinking" with
        | some e => e.text
        | none => some ""
      let country :=
        match findChild ji "Country" with
        | some e => orEmpty e.text
        | none => ""
      ⟨pyStrip medline_ta, nlm_unique_id, issn_linking, country⟩
  | none => ⟨"", "", some "", ""⟩

/-- Body of the `for grant in grants_list:` loop of `parse_grant_id`
(lines 425-453): present sub-elements contribute their raw `.text` (possibly
`None`), absent sub-elements contribute `""`. -/
def grantDict (pmid : Option String) (grant : Elem) : PyDict :=
  let country : Option String :=
    match findChild grant "Country" with
    | some e => e.text
    | none => some ""
  let agency : Option String :=
    match findChild grant "Agency" with
    | some e => e.text
    | none => some ""
  let acronym : Option String :=
    match findChild grant "Acronym" with
    | some e => e.text
    | none => some ""
  let gid : Option String :=
    match findChild grant "GrantID" with
    | some e => e.text
    | none => some ""
  [("pmid", pyOfOpt pmid), ("grant_id", pyOfOpt gid),
   ("grant_acronym", pyOfOpt acronym), ("country", pyOfOpt country),
   ("agency", pyOfOpt agency)]

/-- `parse_grant_id` (lines 402-454). -/
def parse_grant_id (pubmed_article : Elem) : EP (List PyDict) := do
  let some medline := findChild pubmed_article "MedlineCitation"
    | .error .attributeError
  let some article := findChild medline "Article" | .error .attributeError
  let pmid ← parse_pmid pubmed_article
  match findChild article "GrantList" with
  | some grants => pure (grants.children.map (grantDict pmid))
  | none => pure []

/-- `(el.find(tag).text or "").strip() or ""` pattern used for person-name
sub-fields, with `""` when the child element is absent. -/
def childTextStripped (e : Elem) (t : String) : String :=
  match findChild e t with
  | some c => pyStrip (orEmpty c.text)
  | none => ""

/-- The boilerplate affiliation sentence stripped out verbatim (line 509). -/
def boilerplateAffiliation : String :=
  "For a full list of the authors' affiliations please see the Acknowledgements section."

/-- Body of the `for author in authors_list:` loop of
`parse_author_affiliation` (lines 478-526). -/
def authorDict (authors_type : String) (author : Elem) : PyDict :=
  let idPair :=
    match findChild author "Identifier" with
    | some ix => (pyStrip (attrD ix "Source" ""), pyStrip (orEmpty ix.text))
    | none => ("", "")
  let affiliation :=
    match findPath author ["AffiliationInfo", "Affiliation"] with
    | some a => pyReplace (orEmpty a.text) boilerplateAffiliation ""
    | none => ""
  [("lastname", .vStr (childTextStripped author "LastName")),
   ("forename", .vStr (childTextStripped author "ForeName")),
   ("initials", .vStr (childTextStripped author "Initials")),
   ("suffix", .vStr (childTextStripped author "Suffix")),
   ("author_type", .vStr authors_type),
   ("identifier_type", .vStr idPair.1),
   ("identifier", .vStr idPair.2),
   ("corporate", .vStr (childTextStripped author "CollectiveName")),
   ("affiliation", .vStr affiliation)]

/-- `parse_author_affiliation` (lines 457-527). -/
def parse_author_affiliation (medline : Elem) : List PyDict :=
  match findChild medline "Article" with
  | none => []
  | some article =>
      if (findChild article "AuthorList").isSome then
        (findAllChild article "AuthorList").flatMap (fun author_list =>
          let authors_type := attrD author_list "Type" "authors"
          (findAllChild author_list "Author").map (authorDict authors_type))
      else []

/-- `date_extractor` (lines 592-616): `journal.xpath("JournalIssue")[0]`
raises `IndexError` when there is no `JournalIssue` child. -/
def date_extractor (journal : Elem) (year_info_only : Bool) :
    EP (Option String) := do
  let some issue := (findAllChild journal "JournalIssue").head?
    | .error .indexError
  let some issue_date := findChild issue "PubDate" | .error .attributeError
  get_date_info issue_date year_info_only

/-- Citation text of one `Reference` entry (lines 641-648). -/
def refCitation (ref : Elem) : String :=
  match findChild ref "Citation" with
  | some c =>
      match c.text with
      | some t => pyStrip t
      | none => ""
  | none => ""

/-- Resolved PMID of one `Reference` entry (lines 649-661). -/
def refPmid (ref : Elem) : String :=
  match findChild ref "ArticleIdList" with
  | some aids =>
      match findChildAttr aids "ArticleId" "IdType" "pubmed" with
      | some p =>
          match p.text with
          | some t => pyStrip t
          | none => ""
      | none => ""
  | none => ""

/-- `parse_references` (lines 619-670). -/
def parse_references (pubmed_article : Elem) (reference_list : Bool) : PyVal :=
  let refs : List (String × String) :=
    match findPath pubmed_article ["PubmedData", "ReferenceList"] with
    | some rl => (findAllChild rl "Reference").map
        (fun ref => (refCitation ref, refPmid ref))
    | none => []
  if reference_list then
    .vList (refs.map (fun rp =>
      .vDict [("citation", .vStr rp.1), ("pmid", .vStr rp.2)]))
  else
    .vStr (String.intercalate ";"
      ((refs.map Prod.snd).filter (fun s => s ≠ "")))

/-- `parse_coi_statement` (lines 673-689). -/
def parse_coi_statement (medline : Elem) : String :=
  match findChild medline "CoiStatement" with
  | some c => pyStrip (orEmpty c.text)
  | none => ""

/-- `parse_pubmed_history_dates` (lines 692-723). -/
def parse_pubmed_history_dates (pubmed_article : Elem)
    (year_info_only parse_time : Bool) : EP (List PyDict) := do
  if (findChild pubmed_article "PubmedData").isSome then
    match findPath pubmed_article ["PubmedData", "History"] with
    | some history =>
        (findAllChild history "PubMedPubDate").mapM (fun pubmed_pubdate => do
          let pub_date ← get_date_info pubmed_pubdate year_info_only parse_time
          pure [("status", pyOfOpt (attr? pubmed_pubdate "PubStatus")),
                ("date", pyOfOpt pub_date)])
    | none => pure []
  else pure []

/-- `parse_completion_date` (lines 726-752). -/
def parse_completion_date (medline : Elem) (year_info_only : Bool) :
    EP (Option String) := do
  match findChild medline "DateCompleted" with
  | some d => get_date_info d year_info_only
  | none => pure (some "")

/-- `parse_modification_date` (lines 755-781). -/
def parse_modification_date (medline : Elem) (year_info_only : Bool) :
    EP (Option String) := do
  match findChild medline "DateRevised" with
  | some d => get_date_info d year_info_only
  | none => pure (some "")

/-- Body of the `for investigator in investigators_list:` loop
(lines 801-825). -/
def investigatorDict (inv : Elem) : PyDict :=
  [("lastname", .vStr (childTextStripped inv "LastName")),
   ("forename", .vStr (childTextStripped inv "ForeName")),
   ("initials", .vStr (childTextStripped inv "Initials")),
   ("suffix", .vStr (childTextStripped inv "Suffix"))]

/-- `parse_investigators_list` (lines 784-826). -/
def parse_investigators_list (medline : Elem) : List PyDict :=
  match findChild medline "InvestigatorList" with
  | some il => (findAllChild il "Investigator").map investigatorDict
  | none => []

/-- `parse_databank_list` (lines 829-858).  `if databank_list_xml:` and
`if accession_number_list_xml:` use lxml element truthiness (has children).
The `"name"` value is the `DataBankName` element itself — `databank_xml.find`
is stored without reading `.text` (line 848/856). -/
def parse_databank_list (medline : Elem) : EP (List PyDict) := do
  let some article := findChild medline "Article" | .error .attributeError
  match findChild article "DataBankList" with
  | some dbl =>
      if dbl.children.isEmpty then pure []
      else
        pure ((findAllChild dbl "DataBank").map (fun databank_xml =>
          let accession_number_list : List PyVal :=
            match findChild databank_xml "AccessionNumberList" with
            | some anl =>
                if anl.children.isEmpty then []
                else (findAllChild anl "AccessionNumber").map
                  (fun a => pyOfOpt a.text)
            | none => []
          [("name",
            match findChild databank_xml "DataBankName" with
            | some e => PyVal.vElem e
            | none => PyVal.vNone),
           ("accession_numbers", PyVal.vList accession_number_list)]))
  | none => pure []

/-- `parse_personal_subject_names_list` (lines 861-902).  The loop body ends
in `personal_subject_name.append({…})` — appending the dictionary to the lxml
*element* `personal_subject_name`, not to the result list
`personal_subject_names`; lxml's `_Element.append` accepts only an element, so
the first iteration raises `TypeError`, and the result list is never extended.
Hence: absent list or no `PersonalNameSubject` children → `[]`; at least one
child → `TypeError`. -/
def parse_personal_subject_names_list (medline : Elem) : EP (List PyDict) :=
  match findChild medline "PersonalNameSubjectList" with
  | none => .ok []
  | some lst =>
      match findAllChild lst "PersonalNameSubject" with
      | [] => .ok []
      | _ :: _ => .error .typeError

/-- `parse_supplementary_concepts_list` (lines 905-930): the attribute reads
use `attrib.get` with no default, so values can be Python `None`. -/
def parse_supplementary_concepts_list (medline : Elem) : List PyDict :=
  match findChild medline "SupplMeshList" with
  | some sl => (findAllChild sl "SupplMeshName").map (fun sc =>
      [("type", pyOfOpt (attr? sc "Type")), ("UI", pyOfOpt (attr? sc "UI")),
       ("supplementary_concept", pyOfOpt sc.text)])
  | none => []

/-- Modelled from the spec: `stringify_children` lives in
`pubmed_parser/utils.py`, which is not part of the provided sources.  Per the
spec it flattens a node's inline child markup to text; we model it as the
node's own text followed by each child's text, in document order. -/
def stringify_children (e : Elem) : String :=
  orEmpty e.text ++ String.join (e.children.map (fun c => orEmpty c.text))

/-- The boolean configuration of `parse_medline_xml` (lines 1200-1213), with
the source's default values. -/
structure ParseOpts where
  year_info_only : Bool := true
  nlm_category : Bool := false
  author_list : Bool := false
  reference_list : Bool := false
  parse_time : Bool := false
  history_dates_list : Bool := false
  investigator_list : Bool := false
  elocation_ids_list : Bool := false
  databanks_list : Bool := false
  personal_subject_names_list : Bool := false
  supplementary_concepts_list : Bool := false
  grant_ids_list : Bool := false

/-- `d.get(k1, "") + "|" + d.get(k2, "") + …`: the `|`-joined rendering of one
sub-record with empty-string defaults; any non-string operand raises
`TypeError`, left to right. -/
def barJoinD (d : PyDict) (keys : List String) : EP String :=
  match keys with
  | [] => pure ""
  | k :: rest => do
      let first ← pyAsStr (pyGetD d k (.vStr ""))
      rest.foldlM (fun acc k' => do
          let s ← pyAsStr (pyGetD d k' (.vStr ""))
          pure (acc ++ "|" ++ s)) first

/-- `d.get(k1) + "|" + d.get(k2) + …`: as `barJoinD` but with no default
(a missing key contributes `None`, hence `TypeError`). -/
def barJoinN (d : PyDict) (keys : List String) : EP String :=
  match keys with
  | [] => pure ""
  | k :: rest => do
      let first ← pyAsStr (pyGet d k)
      rest.foldlM (fun acc k' => do
          let s ← pyAsStr (pyGet d k' )
          pure (acc ++ "|" ++ s)) first

/-- The `affiliations` comprehension of `parse_article_info`
(lines 1043-1049). -/
def affiliationsJoined (authors_dict : List PyDict) : EP String := do
  let vals := authors_dict.map (fun a => pyGetD a "affiliation" (.vStr ""))
  let kept := vals.filter (fun v =>
    match v with
    | .vStr "" => false
    | _ => true)
  pyJoin ";" kept

/-- The joined-string `authors` comprehension (lines 1050-1058). -/
def authorsJoined (authors_dict : List PyDict) : EP String := do
  let ss ← authors_dict.mapM (fun a => barJoinD a
    ["lastname", "forename", "initials", "suffix", "author_type",
     "identifier_type", "identifier", "corporate"])
  pure (String.intercalate ";" ss)

/-- The joined-string `investigators` comprehension (lines 1064-1070). -/
def investigatorsJoined (investigators_dict : List PyDict) : EP String := do
  let ss ← investigators_dict.mapM (fun i => barJoinD i
    ["lastname", "forename", "initials", "suffix"])
  pure (String.intercalate ";" ss)

/-- The joined-string `history_dates` comprehension (lines 1076-1081). -/
def historyJoined (history_dates : List PyDict) : EP String := do
  let ss ← history_dates.mapM (fun h => barJoinD h ["status", "date"])
  pure (String.intercalate ";" ss)

/-- The joined-string `elocation_ids` comprehension (lines 1085-1090). -/
def elocationJoined (elocation_ids : List PyDict) : EP String := do
  let ss ← elocation_ids.mapM (fun e => barJoinD e ["type", "ELocationID"])
  pure (String.intercalate ";" ss)

/-- The joined-string `personal_subject_names` comprehension
(lines 1110-1116). -/
def personalJoined (names : List PyDict) : EP String := do
  let ss ← names.mapM (fun n => barJoinD n
    ["lastname", "forename", "initials", "suffix"])
  pure (String.intercalate ";" ss)

/-- The joined-string `supplementary_concepts` comprehension
(lines 1120-1126): `get` without default. -/
def supplJoined (concepts : List PyDict) : EP String := do
  let ss ← concepts.mapM (fun c => barJoinN c
    ["type", "UI", "supplementary_concept"])
  pure (String.intercalate ";" ss)

/-- The joined-string `grant_ids` comprehension (lines 1132-1138): `get`
without default, pmid excluded. -/
def grantsJoined (grant_ids : List PyDict) : EP String := do
  let ss ← grant_ids.mapM (fun g => barJoinN g
    ["grant_id", "grant_acronym", "country", "agency"])
  pure (String.intercalate ";" ss)

/-- One iteration of the joined-string `databanks_info` loop
(lines 1095-1103): `databank_name + "/" + accession_number` raises
`TypeError` unless both are strings; a databank without accession numbers
appends its bare name. -/
def dbJoinStep (acc : List PyVal) (databank : PyDict) : EP (List PyVal) := do
  let databank_name := pyGet databank "name"
  match pyGet databank "accession_numbers" with
  | .vList xs =>
      if xs.length > 0 then do
        let terms ← xs.mapM (fun accession_number => do
            let a ← pyAsStr databank_name
            let b ← pyAsStr accession_number
            pure (PyVal.vStr (a ++ "/" ++ b)))
        pure (acc ++ terms)
      else
        pure (acc ++ [databank_name])
  | _ => Except.error PyErr.typeError

/-- The joined-string `databanks_info` rendering (lines 1094-1104): the loop
above followed by `";".join`, which raises `TypeError` on any non-string
item. -/
def databanksJoined (databanks : List PyDict) : EP String := do
  let databanks_info ← databanks.foldlM dbJoinStep []
  pyJoin ";" databanks_info

/-- `issue` recomposition (lines 1007-1012): `short_issue` keeps the raw
issue number; the composed field is `"{volume}({issue})"` unless the volume is
empty, in which case it is `""`. -/
def composeIssue (volume issue : String) : String :=
  if volume = "" then "" else volume ++ "(" ++ issue ++ ")"

/-- One field per local variable of `parse_article_info` at the point the
output dictionary is built (lines 1157-1191). -/
structure ArticleParts where
  title : String
  volume : String
  short_issue : String
  pages : String
  abstract : String
  languages : String
  vernacular_title : String
  authors : PyVal
  affiliations : String
  investigators : PyVal
  history_dates : PyVal
  elocation_ids : PyVal
  databanks : PyVal
  personal_subject_names : PyVal
  supplementary_concepts : PyVal
  publication_status : Option String
  grant_ids : PyVal
  journal_name : String
  pmid : Option String
  doi : String
  references : PyVal
  pubdate : Option String
  mesh : MeshOut
  publication_types : String
  chemical_list : String
  keywords : String
  pmc : String
  other_id : String
  jinfo : JournalInfo
  coi_statement : String
  completion_date : Option String
  modification_date : Option String

/-- The statement sequence of `parse_article_info` (lines 979-1155), in source
order, producing the local variables consumed by the output dictionary. -/
def gatherArticleParts (pubmed_article : Elem) (o : ParseOpts) :
    EP ArticleParts := do
  let some medline := findChild pubmed_article "MedlineCitation"
    | .error .attributeError
  let some article := findChild medline "Article" | .error .attributeError
  let title :=
    match findChild article "ArticleTitle" with
    | some t => pyStrip (stringify_children t)
    | none => ""
  let volume :=
    match findPath article ["Journal", "JournalIssue", "Volume"] with
    | some v => orEmpty v.text
    | none => ""
  let languages ←
    if (findChild article "Language").isSome then
      pyJoin ";" ((findAllChild article "Language").map (fun l => pyOfOpt l.text))
    else pure ""
  let vernacular_title :=
    match findChild article "VernacularTitle" with
    | some t => pyStrip (stringify_children t)
    | none => ""
  let issue :=
    match findPath article ["Journal", "JournalIssue", "Issue"] with
    | some i => orEmpty i.text
    | none => ""
  let short_issue := issue
  let pages :=
    match findPath article ["Pagination", "MedlinePgn"] with
    | some p => orEmpty p.text
    | none => ""
  let category := if o.nlm_category then "NlmCategory" else "Label"
  let abstract :=
    match findPath article ["Abstract", "AbstractText"] with
    | some firstAbs =>
        let absList := findAllPath article ["Abstract", "AbstractText"]
        if absList.length > 1 then
          (String.intercalate "\n" (absList.flatMap (fun ab =>
            (if attrD ab category "" ≠ "UNASSIGNED" then
              ["\n", attrD ab category ""]
            else []) ++ [pyStrip (stringify_children ab)]))) |> pyStrip
        else pyStrip (stringify_children firstAbs)
    | none =>
        match findChild article "Abstract" with
        | some a => pyStrip (stringify_children a)
        | none => ""
  let authors_dict := parse_author_affiliation medline
  let (authors, affiliations) ←
    if !o.author_list then do
      let affs ← affiliationsJoined authors_dict
      let aj ← authorsJoined authors_dict
      pure (PyVal.vStr aj, affs)
    else
      pure (PyVal.vList (authors_dict.map PyVal.vDict), "")
  let investigators_dict := parse_investigators_list medline
  let investigators ←
    if !o.investigator_list then do
      let s ← investigatorsJoined investigators_dict
      pure (PyVal.vStr s)
    else pure (PyVal.vList (investigators_dict.map PyVal.vDict))
  let history_dates_recs ← parse_pubmed_history_dates pubmed_article
    o.year_info_only o.parse_time
  let history_dates ←
    if !o.history_dates_list then do
      let s ← historyJoined history_dates_recs
      pure (PyVal.vStr s)
    else pure (PyVal.vList (history_dates_recs.map PyVal.vDict))
  let elocation_recs ← parse_elocation_ids pubmed_article
  let elocation_ids ←
    if !o.elocation_ids_list then do
      let s ← elocationJoined elocation_recs
      pure (PyVal.vStr s)
    else pure (PyVal.vList (elocation_recs.map PyVal.vDict))
  let databank_recs ← parse_databank_list medline
  let databanks ←
    if !o.databanks_list then do
      let s ← databanksJoined databank_recs
      pure (PyVal.vStr s)
    else pure (PyVal.vList (databank_recs.map PyVal.vDict))
  let personal_recs ← parse_personal_subject_names_list medline
  let personal_subject_names ←
    if !o.personal_subject_names_list then do
      let s ← personalJoined personal_recs
      pure (PyVal.vStr s)
    else pure (PyVal.vList (personal_recs.map PyVal.vDict))
  let suppl_recs := parse_supplementary_concepts_list medline
  let supplementary_concepts ←
    if !o.supplementary_concepts_list then do
      let s ← supplJoined suppl_recs
      pure (PyVal.vStr s)
    else pure (PyVal.vList (suppl_recs.map PyVal.vDict))
  let publication_status ←
    match findPath pubmed_article ["PubmedData", "PublicationStatus"] with
    | some e => pure e.text
    | none => Except.error PyErr.attributeError
  let grant_recs ← parse_grant_id pubmed_article
  let grant_ids ←
    if !o.grant_ids_list then do
      let s ← grantsJoined grant_recs
      pure (PyVal.vStr s)
    else pure (PyVal.vList (grant_recs.map PyVal.vDict))
  let some journal := findChild article "Journal" | .error .attributeError
  let journal_name := String.intercalate " "
    ((findAllChild journal "Title").filterMap Elem.text)
  let pmid ← parse_pmid pubmed_article
  let doi ← parse_doi pubmed_article
  let references := parse_references pubmed_article o.reference_list
  let pubdate ← date_extractor journal o.year_info_only
  let mesh ← parse_mesh_info medline
  let publication_types ← parse_publication_types medline
  let chemical_list ← parse_chemical_list medline
  let keywords := parse_keywords medline
  let other_id_pair ← parse_other_id medline
  let jinfo := parse_journal_info medline
  let coi_statement := parse_coi_statement medline
  let completion_date ← parse_completion_date medline o.year_info_only
  let modification_date ← parse_modification_date medline o.year_info_only
  pure { title := title, volume := volume, short_issue := short_issue,
         pages := pages, abstract := abstract, languages := languages,
         vernacular_title := vernacular_title, authors := authors,
         affiliations := affiliations, investigators := investigators,
         history_dates := history_dates, elocation_ids := elocation_ids,
         databanks := databanks,
         personal_subject_names := personal_subject_names,
         supplementary_concepts := supplementary_concepts,
         publication_status := publication_status, grant_ids := grant_ids,
         journal_name := journal_name, pmid := pmid, doi := doi,
         references := references, pubdate := pubdate, mesh := mesh,
         publication_types := publication_types,
         chemical_list := chemical_list, keywords := keywords,
         pmc := other_id_pair.1, other_id := other_id_pair.2, jinfo := jinfo,
         coi_statement := coi_statement, completion_date := completion_date,
         modification_date := modification_date }

/-- The output dictionary of `parse_article_info`: the literal of
lines 1157-1191 followed by the `update` calls of lines 1192-1196
(`affiliations` only when `author_list` is off, then the `other_id` pair,
then the journal-info fields).  All updated keys are fresh, so each update
appends its entries in order. -/
def buildRecord (p : ArticleParts) (o : ParseOpts) : PyDict :=
  [("title", .vStr p.title),
   ("issue", .vStr (composeIssue p.volume p.short_issue)),
   ("short_issue", .vStr p.short_issue),
   ("volume", .vStr p.volume),
   ("pages", .vStr p.pages),
   ("abstract", .vStr p.abstract),
   ("journal", .vStr p.journal_name),
   ("authors", p.authors),
   ("pubdate", pyOfOpt p.pubdate),
   ("pmid", pyOfOpt p.pmid),
   ("mesh_terms", .vStr p.mesh.mesh_terms),
   ("mesh_subheadings", .vStr p.mesh.mesh_subheadings),
   ("mesh_major_topics", .vStr p.mesh.mesh_major_topics),
   ("mesh_full_terms", .vStr p.mesh.mesh_full_terms),
   ("publication_types", .vStr p.publication_types),
   ("chemical_list", .vStr p.chemical_list),
   ("keywords", .vStr p.keywords),
   ("doi", .vStr p.doi),
   ("references", p.references),
   ("delete", .vBool false),
   ("languages", .vStr p.languages),
   ("vernacular_title", .vStr p.vernacular_title),
   ("coi_statement", .vStr p.coi_statement),
   ("completion_date", pyOfOpt p.completion_date),
   ("modification_date", pyOfOpt p.modification_date),
   ("history_dates", p.history_dates),
   ("investigators", p.investigators),
   ("elocation_ids", p.elocation_ids),
   ("databanks", p.databanks),
   ("personal_subject_names", p.personal_subject_names),
   ("supplementary_concepts", p.supplementary_concepts),
   ("publication_status", pyOfOpt p.publication_status),
   ("grant_ids", p.grant_ids)]
  ++ (if o.author_list then [] else [("affiliations", .vStr p.affiliations)])
  ++ [("pmc", .vStr p.pmc), ("other_id", .vStr p.other_id),
      ("medline_ta", .vStr p.jinfo.medline_ta),
      ("nlm_unique_id", .vStr p.jinfo.nlm_unique_id),
      ("issn_linking", pyOfOpt p.jinfo.issn_linking),
      ("country", .vStr p.jinfo.country)]

/-- `parse_article_info` (lines 933-1197). -/
def parse_article_info (pubmed_article : Elem) (o : ParseOpts) : EP PyDict := do
  let p ← gatherArticleParts pubmed_article o
  pure (buildRecord p o)

/-- The synthetic record for one delete notice (lines 1303-1347): every
informational field is `np.nan`, `pmid` is the notice's stripped text, and
`delete` is `True`. -/
def deleteRecord (pmidText : String) : PyDict :=
  [("title", .vNan), ("abstract", .vNan), ("journal", .vNan),
   ("authors", .vNan), ("affiliations", .vNan), ("pubdate", .vNan),
   ("pmid", .vStr pmidText), ("doi", .vNan), ("other_id", .vNan),
   ("pmc", .vNan), ("mesh_terms", .vNan), ("mesh_subheadings", .vNan),
   ("mesh_major_topics", .vNan), ("mesh_full_terms", .vNan),
   ("keywords", .vNan), ("publication_types", .vNan),
   ("chemical_list", .vNan), ("delete", .vBool true), ("medline_ta", .vNan),
   ("nlm_unique_id", .vNan), ("issn_linking", .vNan), ("country", .vNan),
   ("references", .vNan), ("issue", .vNan), ("short_issue", .vNan),
   ("volume", .vNan), ("pages", .vNan), ("languages", .vNan),
   ("vernacular_title", .vNan), ("coi_statement", .vNan),
   ("completion_date", .vNan), ("modification_date", .vNan),
   ("history_dates", .vNan), ("investigators", .vNan),
   ("elocation_ids", .vNan), ("databanks", .vNan),
   ("personal_subject_names", .vNan), ("supplementary_concepts", .vNan),
   ("publication_status", .vNan), ("grant_ids", .vNan)]

/-- Citation-node location shared by the two drivers (lines 1289-1291 and
1377-1379): the primary container path, falling back to top-level
`PubmedArticle` nodes when it yields nothing. -/
def locateCitations (tree : Elem) : List Elem :=
  let medline_citations :=
    findAllDesc tree ["MedlineCitationSet", "MedlineCitation"]
  if medline_citations.length == 0 then findAllDesc tree ["PubmedArticle"]
  else medline_citations

/-- `parse_medline_xml` (lines 1200-1349), from the already-parsed tree
(`read_xml` is file I/O, an external collaborator per the spec). -/
def parse_medline_xml (tree : Elem) (o : ParseOpts) : EP (List PyDict) := do
  let medline_citations := locateCitations tree
  let article_list ← medline_citations.mapM (fun m => parse_article_info m o)
  let delete_citations := findAllDesc tree ["DeleteCitation", "PMID"]
  let dict_delete ← delete_citations.mapM (fun p => do
      let t ← stripText p.text
      pure (deleteRecord t))
  pure (article_list ++ dict_delete)

/-- `parse_medline_grant_id` (lines 1352-1382), from the already-parsed
tree. -/
def parse_medline_grant_id (tree : Elem) : EP (List PyDict) := do
  let medline_citations := locateCitations tree
  let grant_id_list ← medline_citations.mapM parse_grant_id
  pure grant_id_list.flatten

/-! ### Auxiliary definitions for the theorems -/

/-- Append each element of `xs` to `acc` unless it is already present: the
"membership check before append" dedup discipline of the `parse_mesh_info`
loop (first occurrence wins). -/
def dedupAppend (acc : List String) (xs : List String) : List String :=
  xs.foldl (fun a x => if x ∈ a then a else a ++ [x]) acc

/-- A date-bearing node with a `Year` child and optional `Month`, `Day`,
`Hour`, `Minute` children. -/
def dateElem (y : String) (m d h mi : Option String) : Elem :=
  .node "PubDate" [] none
    ([Elem.node "Year" [] (some y) []]
     ++ (m.map (fun s => Elem.node "Month" [] (some s) [])).toList
     ++ (d.map (fun s => Elem.node "Day" [] (some s) [])).toList
     ++ (h.map (fun s => Elem.node "Hour" [] (some s) [])).toList
     ++ (mi.map (fun s => Elem.node "Minute" [] (some s) [])).toList)

/-- A date-bearing node with only a free-text `MedlineDate` child. -/
def medlineDateElem (t : String) : Elem :=
  .node "PubDate" [] none [.node "MedlineDate" [] (some t) []]

/-- A minimal well-formed `PubmedArticle` (fallback-path shape): citation with
PMID, journal with title/issue/volume/pubdate, and a publication status. -/
def samplePA (pmid vol iss : String) : Elem :=
  .node "PubmedArticle" [] none
    [.node "MedlineCitation" [] none
      [.node "PMID" [] (some pmid) [],
       .node "Article" [] none
         [.node "Journal" [] none
            [.node "Title" [] (some "J Test") [],
             .node "JournalIssue" [] none
               [.node "PubDate" [] none [.node "Year" [] (some "1999") []],
                .node "Volume" [] (some vol) [],
                .node "Issue" [] (some iss) []]]]],
     .node "PubmedData" [] none
       [.node "PublicationStatus" [] (some "ppublish") []]]

/-! Concrete inputs for claim C1 (DOI precedence). -/

def c1aDoiEl : Elem := .node "ELocationID" [("EIdType", "doi")] (some "10.1000/x") []

def c1aPiiEl : Elem := .node "ELocationID" [("EIdType", "pii")] (some "S0") []

/-- Article whose `ELocationID` children are a doi-typed entry followed by a
pii-typed entry. -/
def c1aArticle : Elem := .node "Article" [] none [c1aDoiEl, c1aPiiEl]

def c1a : Elem :=
  .node "PubmedArticle" [] none [.node "MedlineCitation" [] none [c1aArticle]]

/-- Article with a single pii-typed `ELocationID` (no doi-typed entry). -/
def c1bArticle : Elem :=
  .node "Article" [] none [.node "ELocationID" [("EIdType", "pii")] (some "S0") []]

def c1bDoiId : Elem := .node "ArticleId" [("IdType", "doi")] (some "10.9999/fb") []

def c1bAids : Elem := .node "ArticleIdList" [] none [c1bDoiId]

def c1b : Elem :=
  .node "PubmedArticle" [] none
    [.node "MedlineCitation" [] none [c1bArticle],
     .node "PubmedData" [] none [c1bAids]]

/-! Concrete inputs for claim C2 (absent optionals). -/

/-- A citation with a well-formed `MedlineCitation/Article` but no
`PubmedData` at all — so `PubmedData/PublicationStatus` is an absent optional
node. -/
def c2cit : Elem :=
  .node "PubmedArticle" [] none
    [.node "MedlineCitation" [] none
      [.node "PMID" [] (some "1") [], .node "Article" [] none []]]

/-- A citation element carrying one `OtherID` with no text. -/
def c2med : Elem :=
  .node "MedlineCitation" [] none [.node "OtherID" [] none []]

/-! Concrete inputs for claim C4 (absent value rendering). -/

/-- A citation whose direct `PMID` child is present but empty (no text). -/
def c4a : Elem :=
  .node "PubmedArticle" [] none
    [.node "MedlineCitation" [] none [.node "PMID" [] none []]]

/-- A grant whose `GrantID` child is present but empty (no text) and whose
other sub-elements are absent. -/
def c4grant : Elem := .node "Grant" [] none [.node "GrantID" [] none []]

def c4b : Elem :=
  .node "PubmedArticle" [] none
    [.node "MedlineCitation" [] none
      [.node "PMID" [] (some "1") [],
       .node "Article" [] none [.node "GrantList" [] none [c4grant]]]]

/-- A grant with every sub-element absent (for the amended positive part). -/
def c4emptyGrant : Elem := .node "Grant" [] none []

/-! Concrete inputs for claim C5 (two accepted tree shapes). -/

/-- A self-contained shape-1 citation node as found by the primary path:
a `MedlineCitation` with PMID and Article (it has no `MedlineCitation`
child of its own). -/
def c5mc : Elem :=
  .node "MedlineCitation" [] none
    [.node "PMID" [] (some "7") [], .node "Article" [] none []]

/-- A shape-1 tree: a container wrapping `MedlineCitationSet` around
citation nodes. -/
def c5tree : Elem :=
  .node "Root" [] none [.node "MedlineCitationSet" [] none [c5mc]]

def c5goodPA : Elem := samplePA "11" "1" "2"

/-- A shape-2 tree: top-level `PubmedArticle` nodes. -/
def c5goodTree : Elem := .node "PubmedArticleSet" [] none [c5goodPA]

/-! Concrete inputs for claim C6 (MeSH rendering and dedup). -/

/-- A qualifier-less major-topic heading. -/
def c6heading : Elem :=
  .node "MeshHeading" [] none
    [.node "DescriptorName" [("UI", "D1"), ("MajorTopicYN", "Y")] (some "Apple") []]

/-- A `MeshHeadingList` containing the same qualifier-less major heading
twice. -/
def c6med : Elem :=
  .node "MedlineCitation" [] none
    [.node "MeshHeadingList" [] none [c6heading, c6heading]]

def c6q1 : Elem :=
  .node "QualifierName" [("UI", "Q1"), ("MajorTopicYN", "Y")] (some "analysis") []

def c6q2 : Elem := .node "QualifierName" [("UI", "Q2")] (some "methods") []

def c6descr : Elem := .node "DescriptorName" [("UI", "D2")] (some "Banana") []

/-- A heading with two qualifiers, the first flagged as a major topic. -/
def c6wHeading : Elem := .node "MeshHeading" [] none [c6descr, c6q1, c6q2]

/-! Concrete inputs for claim C7 (delete notices). -/

def c7pa : Elem := samplePA "399296" "50" "2"

def c7delP : Elem := .node "PMID" [] (some " 123 ") []

def c7tree : Elem :=
  .node "PubmedArticleSet" [] none
    [c7pa, .node "DeleteCitation" [] none [c7delP]]

def c7rec : PyDict :=
  match parse_article_info c7pa {} with
  | .ok d => d
  | .error _ => []

def c7out : List PyDict :=
  match parse_medline_xml c7tree {} with
  | .ok l => l
  | .error _ => []

/-! Concrete inputs for claim C8 (issue composition). -/

def c8pa : Elem := samplePA "399297" "50" "2"

def c8rec : PyDict :=
  match parse_article_info c8pa {} with
  | .ok d => d
  | .error _ => []

/-! Concrete inputs for claim C9 (personal subject names). -/

/-- A citation with a `PersonalNameSubjectList` holding one
`PersonalNameSubject`. -/
def c9med : Elem :=
  .node "MedlineCitation" [] none
    [.node "PersonalNameSubjectList" [] none
      [.node "PersonalNameSubject" [] none
        [.node "LastName" [] (some "Smith") []]]]

/-- A citation with an empty `PersonalNameSubjectList`. -/
def c9medEmpty : Elem :=
  .node "MedlineCitation" [] none [.node "PersonalNameSubjectList" [] none []]

/-- A citation with no `PersonalNameSubjectList`. -/
def c9medAbsent : Elem := .node "MedlineCitation" [] none []

/-! Concrete inputs for claim C10 (databank name field). -/

def c10nameEl : Elem := .node "DataBankName" [] (some "GENBANK") []

def c10db : Elem :=
  .node "DataBank" [] none
    [c10nameEl,
     .node "AccessionNumberList" [] none
       [.node "AccessionNumber" [] (some "X1") []]]

def c10med : Elem :=
  .node "MedlineCitation" [] none
    [.node "Article" [] none [.node "DataBankList" [] none [c10db]]]

def c10list : List PyDict :=
  match parse_databank_list c10med with
  | .ok l => l
  | .error _ => []

def c10entry : PyDict :=
  match c10list with
  | e :: _ => e
  | [] => []

/-! ### Helper lemmas -/

/-- Inversion for a successful `Except` bind. -/
theorem ep_bind_ok {α β : Type} {x : EP α} {f : α → EP β} {b : β}
    (h : x >>= f = .ok b) : ∃ a, x = .ok a ∧ f a = .ok b := by
  cases x with
  | ok a => exact ⟨a, rfl, h⟩
  | error e => simp [Bind.bind, Except.bind] at h

/-- A successful `mapM` run maps every input element to a successful output
element. -/
theorem mapM_ok_mem {α β : Type} {f : α → EP β} :
    ∀ {l : List α} {out : List β}, l.mapM f = .ok out →
      ∀ x ∈ l, ∃ y, f x = .ok y ∧ y ∈ out := by
  intro l
  induction l with
  | nil => intro out _ x hx; cases hx
  | cons a as ih =>
      intro out h x hx
      rw [List.mapM_cons] at h
      obtain ⟨y, hy, h2⟩ := ep_bind_ok h
      obtain ⟨ys, hys, h3⟩ := ep_bind_ok h2
      have hout : out = y :: ys := by
        simpa [Pure.pure, Except.pure] using h3.symm
      subst hout
      rcases List.mem_cons.mp hx with rfl | hmem
      · exact ⟨y, hy, List.mem_cons_self _ _⟩
      · obtain ⟨y', hy', hmem'⟩ := ih hys x hmem
        exact ⟨y', hy', List.mem_cons_of_mem _ hmem'⟩

theorem ep_ok_bind {α β : Type} (a : α) (f : α → EP β) :
    (Except.ok a >>= f) = f a := rfl

theorem ep_error_bind {α β : Type} (e : PyErr) (f : α → EP β) :
    ((Except.error e : EP α) >>= f) = .error e := rfl

theorem ep_foldlM_cons {α β : Type} (f : β → α → EP β) (init : β) (x : α)
    (l : List α) :
    List.foldlM f init (x :: l) = (f init x >>= fun b => List.foldlM f b l) :=
  rfl

theorem ep_foldlM_nil {α β : Type} (f : β → α → EP β) (init : β) :
    List.foldlM f init [] = Except.ok init := rfl

/-- `pyAsStr` only ever raises `TypeError`. -/
theorem pyAsStr_error {x : PyVal} {e : PyErr} (h : pyAsStr x = .error e) :
    e = .typeError := by
  cases x <;> simp [pyAsStr] at h
  all_goals exact h.symm

/-- A failing `mapM pyAsStr` fails with `TypeError`. -/
theorem mapM_pyAsStr_error : ∀ {l : List PyVal} {e : PyErr},
    l.mapM pyAsStr = .error e → e = .typeError := by
  intro l
  induction l with
  | nil =>
      intro e h
      rw [List.mapM_nil] at h
      exact absurd h (by simp [Pure.pure, Except.pure])
  | cons x xs ih =>
      intro e h
      rw [List.mapM_cons] at h
      cases hx : pyAsStr x with
      | error e' =>
          rw [hx, ep_error_bind] at h
          injection h with h'
          exact h' ▸ pyAsStr_error hx
      | ok s =>
          rw [hx, ep_ok_bind] at h
          cases hxs : xs.mapM pyAsStr with
          | error e' =>
              rw [hxs, ep_error_bind] at h
              injection h with h'
              exact h' ▸ ih hxs
          | ok ys =>
              rw [hxs, ep_ok_bind] at h
              exact absurd h (by simp [Pure.pure, Except.pure])

/-- `";".join` raises `TypeError` as soon as the list holds a non-string. -/
theorem pyJoin_nonstr {xs : List PyVal} {v : PyVal} (hv : v ∈ xs)
    (hns : ∀ s, v ≠ .vStr s) (sep : String) :
    pyJoin sep xs = .error .typeError := by
  unfold pyJoin
  cases hmapm : xs.mapM pyAsStr with
  | error e =>
      obtain rfl := mapM_pyAsStr_error hmapm
      rfl
  | ok ss =>
      exfalso
      obtain ⟨y, hy, _⟩ := mapM_ok_mem hmapm v hv
      cases v with
      | vStr s => exact hns s rfl
      | vNone => simp [pyAsStr] at hy
      | vNan => simp [pyAsStr] at hy
      | vBool b => simp [pyAsStr] at hy
      | vElem e => simp [pyAsStr] at hy
      | vList l => simp [pyAsStr] at hy
      | vDict d => simp [pyAsStr] at hy

/-! ### Claim C2 — absent optional nodes (code bug) -/

/-- C2: the spec's error policy says a missing optional node never raises,
but `parse_article_info` dereferences `PubmedData/PublicationStatus` without a
guard (line 1128), raising `AttributeError` on a citation without
`PubmedData`; and `parse_other_id` evaluates `"PMC" in oid.text` (line 344),
raising `TypeError` on an `OtherID` with no text. -/
theorem c2_absent_optional_raises :
    parse_article_info c2cit {} = Except.error PyErr.attributeError ∧
    parse_other_id c2med = Except.error PyErr.typeError :=
  ⟨rfl, rfl⟩

/-! ### Claim C9 — personal subject names (code bug) -/

/-- C9: the claim says a present `PersonalNameSubjectList` yields one
sub-record per `PersonalNameSubject` child, but the loop body appends each
record to the lxml element (`personal_subject_name.append`, line 894) instead
of the result list, which raises `TypeError`; the absent/empty cases do
return the empty sequence. -/
theorem c9_personal_names_bug :
    parse_personal_subject_names_list c9med = Except.error PyErr.typeError ∧
    parse_personal_subject_names_list c9medEmpty = Except.ok [] ∧
    parse_personal_subject_names_list c9medAbsent = Except.ok [] :=
  ⟨rfl, rfl, rfl⟩

/-! ### Claim C1 — DOI precedence (corrected) -/

/-- C1 counterexample: `c1a` has a doi-typed `ELocationID` (text
`"10.1000/x"`) followed by a pii-typed one, yet `parse_doi` returns `""`
(the last child overall decides, not the last doi-typed match); `c1b` has
`ELocationID` children but none doi-typed plus an `ArticleIdList` doi entry,
yet `parse_doi` returns `""` instead of falling back. -/
theorem c1_doi_counterexample :
    parse_doi c1a = Except.ok "" ∧
    (findAllChild c1aArticle "ELocationID").filter
      (fun e => attrD e "EIdType" "" == "doi") = [c1aDoiEl] ∧
    c1aDoiEl.text = some "10.1000/x" ∧
    ("" : String) ≠ "10.1000/x" ∧
    parse_doi c1b = Except.ok "" ∧
    (findAllChild c1bArticle "ELocationID").filter
      (fun e => attrD e "EIdType" "" == "doi") = [] ∧
    findChildAttr c1bAids "ArticleId" "IdType" "doi" = some c1bDoiId ∧
    c1bDoiId.text = some "10.9999/fb" := by
  refine ⟨rfl, rfl, rfl, ?_, rfl, rfl, rfl, rfl⟩
  decide

/-- The `parse_doi` replacement loop is decided entirely by the last entry
(provided every doi-typed entry has text, so no iteration raises). -/
theorem doiElocLoop_last (init : List Elem) (e : Elem)
    (hinit : ∀ x ∈ init, attrD x "EIdType" "" = "doi" → x.text.isSome)
    (he : attrD e "EIdType" "" = "doi" → e.text.isSome) :
    ∀ acc, doiElocLoop acc (init ++ [e]) =
      .ok (if attrD e "EIdType" "" == "doi" then pyStrip (orEmpty e.text)
           else "") := by
  induction init with
  | nil =>
      intro acc
      by_cases hd : attrD e "EIdType" "" = "doi"
      · obtain ⟨t, ht⟩ := Option.isSome_iff_exists.mp (he hd)
        simp [doiElocLoop, hd, ht, stripText, orEmpty, Bind.bind, Except.bind]
      · simp [doiElocLoop, hd]
  | cons x init' ih =>
      intro acc
      have hx := hinit x (List.mem_cons_self _ _)
      have hinit' : ∀ y ∈ init', attrD y "EIdType" "" = "doi" → y.text.isSome :=
        fun y hy => hinit y (List.mem_cons_of_mem _ hy)
      by_cases hd : attrD x "EIdType" "" = "doi"
      · obtain ⟨t, ht⟩ := Option.isSome_iff_exists.mp (hx hd)
        simp only [List.cons_append, doiElocLoop, hd, ht, stripText,
          Bind.bind, Except.bind, beq_self_eq_true, if_true]
        simpa using ih hinit' (pyStrip t)
      · have hd' : (attrD x "EIdType" "" == "doi") = false := by
          simp [hd]
        simp only [List.cons_append, doiElocLoop, hd', Bool.false_eq_true,
          if_false]
        simpa using ih hinit' ""

/-- C1 (amended): when `ELocationID` children exist, `parse_doi` is decided
solely by the *last* child — its stripped text if that child is doi-typed,
else `""` (earlier doi-typed entries and the ArticleIdList are ignored); the
ArticleIdList doi entry is consulted only when there are no `ELocationID`
children at all, and absence at both locations yields `""`. -/
theorem c1_doi_amended
    (pa medline article : Elem)
    (hm : findChild pa "MedlineCitation" = some medline)
    (ha : findChild medline "Article" = some article)
    (htext : ∀ x ∈ findAllChild article "ELocationID",
      attrD x "EIdType" "" = "doi" → x.text.isSome) :
    (∀ init e, findAllChild article "ELocationID" = init ++ [e] →
      parse_doi pa =
        .ok (if attrD e "EIdType" "" == "doi" then pyStrip (orEmpty e.text)
             else "")) ∧
    (findAllChild article "ELocationID" = [] →
      findPath pa ["PubmedData", "ArticleIdList"] = none →
      parse_doi pa = .ok "") ∧
    (∀ aids, findAllChild article "ELocationID" = [] →
      findPath pa ["PubmedData", "ArticleIdList"] = some aids →
      findChildAttr aids "ArticleId" "IdType" "doi" = none →
      parse_doi pa = .ok "") ∧
    (∀ aids d, findAllChild article "ELocationID" = [] →
      findPath pa ["PubmedData", "ArticleIdList"] = some aids →
      findChildAttr aids "ArticleId" "IdType" "doi" = some d →
      parse_doi pa = .ok (match d.text with
        | some t => pyStrip t
        | none => "")) := by
  refine ⟨?_, ?_, ?_, ?_⟩
  · intro init e heq
    have hinit : ∀ x ∈ init, attrD x "EIdType" "" = "doi" → x.text.isSome :=
      fun x hx => htext x (heq ▸ List.mem_append_left _ hx)
    have he : attrD e "EIdType" "" = "doi" → e.text.isSome :=
      htext e (heq ▸ List.mem_append_right _ (List.mem_singleton_self _))
    simp only [parse_doi, hm, ha, heq]
    simp [doiElocLoop_last init e hinit he ""]
  · intro heq hnone
    simp [parse_doi, hm, ha, heq, hnone, Pure.pure, Except.pure]
  · intro aids heq hsome hnone
    simp [parse_doi, hm, ha, heq, hsome, hnone, Pure.pure, Except.pure]
  · intro aids d heq hsome hd
    simp [parse_doi, hm, ha, heq, hsome, hd, Pure.pure, Except.pure]

/-- C1 witness: applying the amended characterization at `c1a` (last
`ELocationID` child is pii-typed), the scalar DOI is `""`. -/
theorem c1_doi_amended_witness : parse_doi c1a = Except.ok "" := by
  have h := c1_doi_amended c1a (.node "MedlineCitation" [] none [c1aArticle])
    c1aArticle rfl rfl (by decide)
  exact h.1 [c1aDoiEl] c1aPiiEl rfl

/-! ### Claim C4 — absent values render as empty string (corrected) -/

/-- C4 counterexample: a present-but-textless `PMID` makes `parse_pmid`
return Python `None` (not a string); a present-but-textless `GrantID` makes
the grant sub-record hold `None` for `grant_id` (not `""`). -/
theorem c4_empty_value_counterexample :
    parse_pmid c4a = Except.ok none ∧
    parse_grant_id c4b = Except.ok
      [[("pmid", PyVal.vStr "1"), ("grant_id", PyVal.vNone),
        ("grant_acronym", PyVal.vStr ""), ("country", PyVal.vStr ""),
        ("agency", PyVal.vStr "")]] :=
  ⟨rfl, rfl⟩

/-- C4 (amended): an *absent* sub-element renders as `""` — the PMID fallback
branch always yields a string, and each grant sub-field whose element is
absent is `""` — but a *present, text-less* element yields Python `None`
(the counterexample), so "never null" does not hold as stated. -/
theorem c4_empty_value_amended :
    (∀ pa medline p, findChild pa "MedlineCitation" = some medline →
      findChild medline "PMID" = some p →
      parse_pmid pa = .ok p.text) ∧
    (∀ pa medline, findChild pa "MedlineCitation" = some medline →
      findChild medline "PMID" = none →
      ∃ s, parse_pmid pa = .ok (some s)) ∧
    (∀ pm g, findChild g "GrantID" = none →
      pyLookup "grant_id" (grantDict pm g) = some (.vStr "")) ∧
    (∀ pm g, findChild g "Acronym" = none →
      pyLookup "grant_acronym" (grantDict pm g) = some (.vStr "")) ∧
    (∀ pm g, findChild g "Country" = none →
      pyLookup "country" (grantDict pm g) = some (.vStr "")) ∧
    (∀ pm g, findChild g "Agency" = none →
      pyLookup "agency" (grantDict pm g) = some (.vStr "")) := by
  refine ⟨?_, ?_, ?_, ?_, ?_, ?_⟩
  · intro pa medline p h1 h2
    simp [parse_pmid, h1, h2, Pure.pure, Except.pure]
  · intro pa medline h1 h2
    cases hfp : findPath pa ["PubmedData", "ArticleIdList"] with
    | none =>
        exact ⟨"", by simp [parse_pmid, h1, h2, hfp, Pure.pure, Except.pure]⟩
    | some aids =>
        cases hfa : findChildAttr aids "ArticleId" "IdType" "pmid" with
        | none =>
            exact ⟨"", by
              simp [parse_pmid, h1, h2, hfp, hfa, Pure.pure, Except.pure]⟩
        | some pm =>
            cases ht : pm.text with
            | none =>
                exact ⟨"", by
                  simp [parse_pmid, h1, h2, hfp, hfa, ht, Pure.pure,
                    Except.pure]⟩
            | some t =>
                exact ⟨pyStrip t, by
                  simp [parse_pmid, h1, h2, hfp, hfa, ht, Pure.pure,
                    Except.pure]⟩
  · intro pm g h
    simp [grantDict, h, pyLookup, pyOfOpt]
  · intro pm g h
    simp [grantDict, h, pyLookup, pyOfOpt]
  · intro pm g h
    simp [grantDict, h, pyLookup, pyOfOpt]
  · intro pm g h
    simp [grantDict, h, pyLookup, pyOfOpt]

/-- C4 witness: concrete instances of the amended characterization. -/
theorem c4_empty_value_amended_witness :
    parse_pmid c4b = Except.ok (some "1") ∧
    pyLookup "grant_id" (grantDict (some "1") c4emptyGrant)
      = some (PyVal.vStr "") ∧
    pyLookup "grant_acronym" (grantDict (some "1") c4emptyGrant)
      = some (PyVal.vStr "") ∧
    pyLookup "country" (grantDict (some "1") c4emptyGrant)
      = some (PyVal.vStr "") ∧
    pyLookup "agency" (grantDict (some "1") c4emptyGrant)
      = some (PyVal.vStr "") := by
  have h := c4_empty_value_amended
  exact ⟨h.1 c4b
      (.node "MedlineCitation" [] none
        [.node "PMID" [] (some "1") [],
         .node "Article" [] none [.node "GrantList" [] none [c4grant]]])
      (.node "PMID" [] (some "1") []) rfl rfl,
    h.2.2.1 (some "1") c4emptyGrant rfl,
    h.2.2.2.1 (some "1") c4emptyGrant rfl,
    h.2.2.2.2.1 (some "1") c4emptyGrant rfl,
    h.2.2.2.2.2 (some "1") c4emptyGrant rfl⟩

/-! ### Claim C5 — two accepted tree shapes (corrected) -/

/-- C5 counterexample: the primary container path finds the shape-1 citation
node `c5mc`, but mapping the per-citation extractor over it raises
(`parse_article_info` looks for a `MedlineCitation` *child* of the node),
so the driver errors instead of producing one record. -/
theorem c5_two_shapes_counterexample :
    findAllDesc c5tree ["MedlineCitationSet", "MedlineCitation"] = [c5mc] ∧
    locateCitations c5tree = [c5mc] ∧
    parse_medline_xml c5tree {} = Except.error PyErr.attributeError :=
  ⟨rfl, rfl, rfl⟩

/-- C5 (amended): the driver does try the primary container path and falls
back to `PubmedArticle` nodes when it yields nothing, and extraction succeeds
on fallback-shaped citations; but any node without a `MedlineCitation` child —
in particular every node found by the primary path, which finds the
`MedlineCitation` elements themselves — makes the per-citation extractor
raise `AttributeError`. -/
theorem c5_two_shapes_amended :
    (∀ c o, findChild c "MedlineCitation" = none →
      parse_article_info c o = .error .attributeError) ∧
    (∀ t, findAllDesc t ["MedlineCitationSet", "MedlineCitation"] = [] →
      locateCitations t = findAllDesc t ["PubmedArticle"]) ∧
    (∃ d, parse_medline_xml c5goodTree {} = .ok [d] ∧
      pyLookup "pmid" d = some (.vStr "11")) := by
  refine ⟨?_, ?_, ?_⟩
  · intro c o h
    simp [parse_article_info, gatherArticleParts, h, Bind.bind, Except.bind]
  · intro t h
    simp [locateCitations, h]
  · exact ⟨_, rfl, rfl⟩

/-- C5 witness: the amended characterization applied at the concrete
shape-1 citation node and the concrete shape-2 tree. -/
theorem c5_two_shapes_amended_witness :
    parse_article_info c5mc {} = Except.error PyErr.attributeError ∧
    locateCitations c5goodTree = findAllDesc c5goodTree ["PubmedArticle"] :=
  ⟨c5_two_shapes_amended.1 c5mc {} rfl,
   c5_two_shapes_amended.2.1 c5goodTree rfl⟩

/-! ### Claim C6 — MeSH full terms and dedup (corrected) -/

/-- C6 counterexample: two identical qualifier-less major headings produce a
*duplicated* entry in the major-topics view — the qualifier-less branch
appends without a membership check, so the claimed "first occurrence wins"
dedup does not hold for that list. -/
theorem c6_mesh_dedup_counterexample :
    parse_mesh_info c6med = Except.ok
      ⟨"D1:Apple; D1:Apple", "", "D1:Apple; D1:Apple",
       "D1:Apple*; D1:Apple*"⟩ ∧
    ("D1:Apple; D1:Apple" : String) ≠ "D1:Apple" := by
  exact ⟨rfl, by decide⟩

theorem dedupAppend_cons (acc : List String) (x : String) (xs : List String) :
    dedupAppend acc (x :: xs)
      = dedupAppend (if x ∈ acc then acc else acc ++ [x]) xs := rfl

/-- The inner qualifier loop of `parse_mesh_info`: one full-term entry per
qualifier, dedup-append for subheadings and for major-flagged qualifiers. -/
theorem qualFold_spec (dUI dText : String) :
    ∀ (qs : List Elem) (st : MeshLists), (∀ q ∈ qs, q.text.isSome) →
      qs.foldlM (qualStep dUI dText) st = .ok
        { terms := st.terms,
          subheadings := dedupAppend st.subheadings
            (qs.map (fun q => attrD q "UI" "" ++ ":" ++ orEmpty q.text)),
          majors := dedupAppend st.majors
            ((qs.filter (fun q => attrD q "MajorTopicYN" "N" == "Y")).map
              (fun q => attrD q "UI" "" ++ ":" ++ orEmpty q.text)),
          fulls := st.fulls ++ qs.map (fun q =>
            dUI ++ "/" ++ attrD q "UI" "" ++ ":" ++ dText ++ "/"
            ++ orEmpty q.text
            ++ (if attrD q "MajorTopicYN" "N" == "Y" then "*" else "")) } := by
  intro qs
  induction qs with
  | nil =>
      intro st _
      rw [ep_foldlM_nil]
      simp [dedupAppend]
  | cons q qs' ih =>
      intro st hq
      obtain ⟨tq, htq⟩ :=
        Option.isSome_iff_exists.mp (hq q (List.mem_cons_self _ _))
      have hstep : qualStep dUI dText st q = .ok
          { terms := st.terms,
            subheadings :=
              if (attrD q "UI" "" ++ ":" ++ tq) ∈ st.subheadings then
                st.subheadings
              else st.subheadings ++ [attrD q "UI" "" ++ ":" ++ tq],
            majors :=
              if attrD q "MajorTopicYN" "N" == "Y" then
                if (attrD q "UI" "" ++ ":" ++ tq) ∈ st.majors then st.majors
                else st.majors ++ [attrD q "UI" "" ++ ":" ++ tq]
              else st.majors,
            fulls := st.fulls ++ [dUI ++ "/" ++ attrD q "UI" "" ++ ":"
              ++ dText ++ "/" ++ tq
              ++ (if attrD q "MajorTopicYN" "N" == "Y" then "*" else "")] } := by
        simp [qualStep, textOrTypeError, htq, Pure.pure, Except.pure,
          Bind.bind, Except.bind]
      rw [ep_foldlM_cons, hstep, ep_ok_bind,
        ih _ (fun y hy => hq y (List.mem_cons_of_mem _ hy))]
      by_cases hflag : attrD q "MajorTopicYN" "N" = "Y" <;>
        simp [hflag, List.filter_cons, dedupAppend_cons, htq, orEmpty,
          List.append_assoc]

/-- C6 (amended): a qualifier-less heading contributes one term, one
full-term entry (starred iff the heading is major) and — *without* any dedup
check — one major-topics entry when major; a heading with qualifiers
contributes exactly one full-term entry per qualifier, rendered
`hUI/qUI:htext/qtext` and starred independently per qualifier, with
subheadings and qualifier-derived major topics appended under first-wins
dedup. -/
theorem c6_mesh_amended :
    (∀ (st : MeshLists) (heading descr : Elem) (t : String),
      findChild heading "DescriptorName" = some descr →
      descr.text = some t →
      findAllChild heading "QualifierName" = [] →
      meshStep st heading = .ok
        { terms := st.terms ++ [attrD descr "UI" "" ++ ":" ++ t],
          subheadings := st.subheadings,
          majors := st.majors ++
            (if attrD descr "MajorTopicYN" "N" == "Y" then
              [attrD descr "UI" "" ++ ":" ++ t]
            else []),
          fulls := st.fulls ++ [attrD descr "UI" "" ++ ":" ++ t ++
            (if attrD descr "MajorTopicYN" "N" == "Y" then "*" else "")] }) ∧
    (∀ (st : MeshLists) (heading descr : Elem) (t : String) (qs : List Elem),
      findChild heading "DescriptorName" = some descr →
      descr.text = some t →
      findAllChild heading "QualifierName" = qs →
      qs ≠ [] →
      (∀ q ∈ qs, q.text.isSome) →
      meshStep st heading = .ok
        { terms := st.terms ++ [attrD descr "UI" "" ++ ":" ++ t],
          subheadings := dedupAppend st.subheadings
            (qs.map (fun q => attrD q "UI" "" ++ ":" ++ orEmpty q.text)),
          majors := dedupAppend st.majors
            ((qs.filter (fun q => attrD q "MajorTopicYN" "N" == "Y")).map
              (fun q => attrD q "UI" "" ++ ":" ++ orEmpty q.text)),
          fulls := st.fulls ++ qs.map (fun q =>
            attrD descr "UI" "" ++ "/" ++ attrD q "UI" "" ++ ":" ++ t ++ "/"
            ++ orEmpty q.text
            ++ (if attrD q "MajorTopicYN" "N" == "Y" then "*" else "")) }) := by
  constructor
  · intro st heading descr t hfind htext hqs
    simp only [meshStep, hfind, hqs, textOrTypeError, htext, List.length_nil,
      gt_iff_lt, Nat.lt_irrefl, if_false, Bind.bind, Except.bind]
    by_cases hflag : attrD descr "MajorTopicYN" "N" = "Y" <;>
      simp [hflag, Pure.pure, Except.pure]
  · intro st heading descr t qs hfind htext hqs hne hq
    cases qs with
    | nil => exact absurd rfl hne
    | cons q qs' =>
        simp only [meshStep, hfind, hqs, textOrTypeError, htext,
          List.length_cons, Bind.bind, Except.bind]
        rw [if_pos (Nat.succ_pos qs'.length)]
        exact qualFold_spec (attrD descr "UI" "") t (q :: qs') _ hq

/-- C6 witness: the heading with two qualifiers (first one major) produces
the two claimed full-term entries; and appending the qualifier-less major
heading to a state already holding its rendered string duplicates it. -/
theorem c6_mesh_amended_witness :
    meshStep ⟨[], [], [], []⟩ c6wHeading = .ok
      ⟨["D2:Banana"], ["Q1:analysis", "Q2:methods"], ["Q1:analysis"],
       ["D2/Q1:Banana/analysis*", "D2/Q2:Banana/methods"]⟩ ∧
    meshStep ⟨[], [], ["D1:Apple"], []⟩ c6heading = .ok
      ⟨["D1:Apple"], [], ["D1:Apple", "D1:Apple"], ["D1:Apple*"]⟩ := by
  constructor
  · exact c6_mesh_amended.2 ⟨[], [], [], []⟩ c6wHeading c6descr "Banana"
      [c6q1, c6q2] rfl rfl rfl (List.cons_ne_nil _ _) (by decide)
  · exact c6_mesh_amended.1 ⟨[], [], ["D1:Apple"], []⟩ c6heading
      (.node "DescriptorName" [("UI", "D1"), ("MajorTopicYN", "Y")]
        (some "Apple") []) "Apple" rfl rfl rfl

/-! ### Claim C8 — issue composition (confirmed) -/

/-- C8: in every successfully produced record, the composed `issue` field is
`"{volume}({issue_number})"` when the `volume` field is non-empty and `""`
when it is empty — regardless of the issue number — and `short_issue` always
holds the raw issue number read into it. -/
theorem c8_issue_composition (pa : Elem) (o : ParseOpts) (d : PyDict)
    (h : parse_article_info pa o = .ok d) (vol raw : String)
    (hv : pyLookup "volume" d = some (.vStr vol))
    (hr : pyLookup "short_issue" d = some (.vStr raw)) :
    pyLookup "issue" d
      = some (.vStr (if vol = "" then "" else vol ++ "(" ++ raw ++ ")")) := by
  simp only [parse_article_info] at h
  obtain ⟨p, hp, hpure⟩ := ep_bind_ok h
  have hd : d = buildRecord p o := by
    simpa [Pure.pure, Except.pure] using hpure.symm
  subst hd
  have e1 : pyLookup "volume" (buildRecord p o) = some (.vStr p.volume) := rfl
  have e2 : pyLookup "short_issue" (buildRecord p o)
      = some (.vStr p.short_issue) := rfl
  have e3 : pyLookup "issue" (buildRecord p o)
      = some (.vStr (composeIssue p.volume p.short_issue)) := rfl
  rw [e1] at hv
  rw [e2] at hr
  simp only [Option.some.injEq, PyVal.vStr.injEq] at hv hr
  subst hv
  subst hr
  rw [e3]
  simp [composeIssue]

/-- C8 witness: the concrete citation with volume `"50"` and issue number
`"2"` renders issue `"50(2)"`. -/
theorem c8_issue_composition_witness :
    pyLookup "issue" c8rec = some (.vStr "50(2)") :=
  c8_issue_composition c8pa {} c8rec rfl "50" "2" rfl rfl

/-! ### Claim C7 — delete notices (confirmed) -/

/-- C7: every delete notice yields a record whose `delete` field is `True`,
whose `pmid` is the notice's stripped text, and whose every other field is
the `np.nan` unset marker; and every article record carries
`delete = False`. -/
theorem c7_delete_records :
    (∀ pa o d, parse_article_info pa o = .ok d →
      pyLookup "delete" d = some (.vBool false)) ∧
    (∀ tree o out, parse_medline_xml tree o = .ok out →
      ∀ p ∈ findAllDesc tree ["DeleteCitation", "PMID"],
        ∃ t, p.text = some t ∧ deleteRecord (pyStrip t) ∈ out) ∧
    (∀ s kv, kv ∈ deleteRecord s →
      (kv.1 = "pmid" ∧ kv.2 = .vStr s) ∨
      (kv.1 = "delete" ∧ kv.2 = .vBool true) ∨ kv.2 = .vNan) := by
  refine ⟨?_, ?_, ?_⟩
  · intro pa o d h
    simp only [parse_article_info] at h
    obtain ⟨p, hp, hpure⟩ := ep_bind_ok h
    have hd : d = buildRecord p o := by
      simpa [Pure.pure, Except.pure] using hpure.symm
    subst hd
    rfl
  · intro tree o out h
    simp only [parse_medline_xml] at h
    obtain ⟨arts, harts, h2⟩ := ep_bind_ok h
    obtain ⟨dels, hdels, h3⟩ := ep_bind_ok h2
    have hout : out = arts ++ dels := by
      simpa [Pure.pure, Except.pure] using h3.symm
    subst hout
    intro p hp
    obtain ⟨y, hy, hym⟩ := mapM_ok_mem hdels p hp
    obtain ⟨t0, ht0, hpure⟩ := ep_bind_ok hy
    cases hptext : p.text with
    | none =>
        rw [hptext] at ht0
        exact absurd ht0 (by simp [stripText])
    | some t =>
        rw [hptext] at ht0
        have ht0' : t0 = pyStrip t := by simpa [stripText] using ht0.symm
        refine ⟨t, rfl, ?_⟩
        have hyv : y = deleteRecord (pyStrip t) := by
          simpa [Pure.pure, Except.pure, ht0'] using hpure.symm
        subst hyv
        exact List.mem_append_right _ hym
  · intro s kv h
    simp only [deleteRecord, List.mem_cons, List.not_mem_nil, or_false] at h
    rcases h with rfl|rfl|rfl|rfl|rfl|rfl|rfl|rfl|rfl|rfl|rfl|rfl|rfl|rfl|rfl|
      rfl|rfl|rfl|rfl|rfl|rfl|rfl|rfl|rfl|rfl|rfl|rfl|rfl|rfl|rfl|rfl|rfl|rfl|
      rfl|rfl|rfl|rfl|rfl|rfl|rfl <;> simp

/-- C7 witness: in the concrete tree with one article and one delete notice
(text `" 123 "`), the article record has `delete = False` and the output
contains `deleteRecord "123"`. -/
theorem c7_delete_records_witness :
    pyLookup "delete" c7rec = some (.vBool false) ∧
    (∃ t, c7delP.text = some t ∧ deleteRecord (pyStrip t) ∈ c7out) :=
  ⟨c7_delete_records.1 c7pa {} c7rec rfl,
   c7_delete_records.2.1 c7tree {} c7out rfl c7delP (List.Mem.head _)⟩

/-! ### Claim C3 — graduated date precision (confirmed) -/

/-- A successful association-list lookup returns one of the stored values. -/
theorem lookup_val_mem {β : Type} {k : String} {v : β} :
    ∀ {l : List (String × β)}, l.lookup k = some v → v ∈ l.map Prod.snd := by
  intro l
  induction l with
  | nil => intro h; simp [List.lookup] at h
  | cons p rest ih =>
      intro h
      cases p with
      | mk k' b =>
          simp only [List.lookup] at h
          cases hbeq : (k == k') with
          | true =>
              rw [hbeq] at h
              injection h with h'
              subst h'
              simp
          | false =>
              rw [hbeq] at h
              simpa using Or.inr (ih h)

/-- The token formatter never produces the empty string, so a canonicalized
component always survives the `filter(None, …)` in the date join. -/
theorem month_or_day_formater_ne_empty {s r : String}
    (h : month_or_day_formater s = some r) : r ≠ "" := by
  unfold month_or_day_formater at h
  split at h
  next m hl =>
    injection h with h'
    subst h'
    have hmem := lookup_val_mem hl
    simp only [monthAbbrTable, List.map_cons, List.map_nil, List.mem_cons,
      List.not_mem_nil, or_false] at hmem
    rcases hmem with rfl|rfl|rfl|rfl|rfl|rfl|rfl|rfl|rfl|rfl|rfl|rfl <;>
      decide
  next hl =>
    split at h
    · next hcond =>
        injection h with h'
        subst h'
        split
        · intro hc
          have hdata := congrArg String.data hc
          simp at hdata
        · exact of_decide_eq_true (Bool.and_eq_true .. ▸ hcond).1
    · next hcond =>
        exact absurd h (by simp)

/-- C3: with year-only off, `get_date_info` renders exactly the obtainable
prefix of Year→Month→Day→Hour→Minute — year alone, `YYYY-MM`, `YYYY-MM-DD`,
and with time parsing `YYYY-MM-DD HH:MM`; a finer component is only consulted
when the next-coarser one is present (Day without Month is ignored); with no
Year but a MedlineDate, the first 4-digit run of the free text is returned,
or `""` when none exists. -/
theorem c3_date_graduated_precision
    (y m d h mi m2 d2 h2 mi2 : String) (pt : Bool)
    (hy : y ≠ "")
    (hm : month_or_day_formater m = some m2)
    (hd : month_or_day_formater d = some d2)
    (hh : month_or_day_formater h = some h2)
    (hmi : month_or_day_formater mi = some mi2) :
    get_date_info (dateElem y none none none none) false pt = .ok (some y) ∧
    get_date_info (dateElem y (some m) none none none) false pt
      = .ok (some (y ++ "-" ++ m2)) ∧
    get_date_info (dateElem y (some m) (some d) none none) false pt
      = .ok (some (y ++ "-" ++ m2 ++ "-" ++ d2)) ∧
    get_date_info (dateElem y (some m) (some d) (some h) (some mi)) false true
      = .ok (some (y ++ "-" ++ m2 ++ "-" ++ d2 ++ " " ++ h2 ++ ":" ++ mi2)) ∧
    get_date_info (dateElem y none (some d) none none) false pt
      = .ok (some y) ∧
    (∀ t, get_date_info (medlineDateElem t) false pt
      = .ok (some (orEmpty (firstFourDigitRun t)))) ∧
    get_date_info (medlineDateElem "1975 Jan-Feb") false pt
      = .ok (some "1975") ∧
    get_date_info (medlineDateElem "no year here") false pt
      = .ok (some "") := by
  have hm2 := month_or_day_formater_ne_empty hm
  have hd2 := month_or_day_formater_ne_empty hd
  have hh2 := month_or_day_formater_ne_empty hh
  have hmi2 := month_or_day_formater_ne_empty hmi
  refine ⟨rfl, ?_, ?_, ?_, rfl, fun t => rfl, rfl, rfl⟩
  · have fY : findChild (dateElem y (some m) none none none) "Year"
        = some (.node "Year" [] (some y) []) := rfl
    have fM : findChild (dateElem y (some m) none none none) "Month"
        = some (.node "Month" [] (some m) []) := rfl
    have fD : findChild (dateElem y (some m) none none none) "Day"
        = none := rfl
    simp only [get_date_info, fY, fM, fD, Elem.text, fmtText, hm, Bind.bind,
      Except.bind, Pure.pure, Except.pure, joinTruthy]
    simp [hy, hm2]
    rfl
  · have fY : findChild (dateElem y (some m) (some d) none none) "Year"
        = some (.node "Year" [] (some y) []) := rfl
    have fM : findChild (dateElem y (some m) (some d) none none) "Month"
        = some (.node "Month" [] (some m) []) := rfl
    have fD : findChild (dateElem y (some m) (some d) none none) "Day"
        = some (.node "Day" [] (some d) []) := rfl
    have fH : findChild (dateElem y (some m) (some d) none none) "Hour"
        = none := rfl
    simp only [get_date_info, fY, fM, fD, fH, Elem.text, fmtText, hm, hd,
      Bind.bind, Except.bind, Pure.pure, Except.pure, joinTruthy]
    simp [hy, hm2, hd2]
    rfl
  · have fY : findChild (dateElem y (some m) (some d) (some h) (some mi))
        "Year" = some (.node "Year" [] (some y) []) := rfl
    have fM : findChild (dateElem y (some m) (some d) (some h) (some mi))
        "Month" = some (.node "Month" [] (some m) []) := rfl
    have fD : findChild (dateElem y (some m) (some d) (some h) (some mi))
        "Day" = some (.node "Day" [] (some d) []) := rfl
    have fH : findChild (dateElem y (some m) (some d) (some h) (some mi))
        "Hour" = some (.node "Hour" [] (some h) []) := rfl
    have fMi : findChild (dateElem y (some m) (some d) (some h) (some mi))
        "Minute" = some (.node "Minute" [] (some mi) []) := rfl
    simp only [get_date_info, fY, fM, fD, fH, fMi, Elem.text, fmtText, hm,
      hd, hh, hmi, Bind.bind, Except.bind, Pure.pure, Except.pure, joinTruthy]
    simp [hy, hm2, hd2, hh2, hmi2]
    have ic3 : "-".intercalate [y, m2, d2] = y ++ "-" ++ m2 ++ "-" ++ d2 :=
      rfl
    have ic2 : ":".intercalate [h2, mi2] = h2 ++ ":" ++ mi2 := rfl
    rw [ic3, ic2]
    simp [String.append_assoc]

/-- C3 witness: concrete dates at each precision level. -/
theorem c3_date_graduated_precision_witness :
    get_date_info (dateElem "1999" none none none none) false false
      = .ok (some "1999") ∧
    get_date_info (dateElem "1999" (some "Jan") none none none) false false
      = .ok (some "1999-01") ∧
    get_date_info (dateElem "1999" (some "Jan") (some "5") none none)
      false false = .ok (some "1999-01-05") ∧
    get_date_info
      (dateElem "1999" (some "Jan") (some "5") (some "7") (some "30"))
      false true = .ok (some "1999-01-05 07:30") ∧
    get_date_info (dateElem "1999" none (some "5") none none) false false
      = .ok (some "1999") ∧
    get_date_info (medlineDateElem "1975 Jan-Feb") false false
      = .ok (some "1975") := by
  have h := c3_date_graduated_precision "1999" "Jan" "5" "7" "30" "01" "05"
    "07" "30" false (by decide) rfl rfl rfl rfl
  exact ⟨h.1, h.2.1, h.2.2.1, h.2.2.2.1, h.2.2.2.2.1, h.2.2.2.2.2.2.1⟩

/-! ### Claim C10 — databank name holds the element (confirmed) -/

/-- Every entry produced by `parse_databank_list` is the two-key dictionary
whose `"name"` value is the `DataBankName` *element* (or `None`), never a
string, and whose `"accession_numbers"` value is a list. -/
theorem parse_databank_list_entries {medline : Elem} {l : List PyDict}
    (h : parse_databank_list medline = .ok l) :
    ∀ entry ∈ l, ∃ (nm : PyVal) (xs : List PyVal),
      entry = [("name", nm), ("accession_numbers", .vList xs)] ∧
      ((∃ e, nm = .vElem e) ∨ nm = .vNone) := by
  cases hart : findChild medline "Article" with
  | none => simp [parse_databank_list, hart] at h
  | some article =>
      simp only [parse_databank_list, hart] at h
      cases hdbl : findChild article "DataBankList" with
      | none =>
          rw [hdbl] at h
          have : l = [] := by simpa [Pure.pure, Except.pure] using h.symm
          subst this
          intro entry he
          cases he
      | some dbl =>
          simp only [hdbl] at h
          by_cases hempty : dbl.children.isEmpty
          · rw [if_pos hempty] at h
            have : l = [] := by simpa [Pure.pure, Except.pure] using h.symm
            subst this
            intro entry he
            cases he
          · rw [if_neg hempty] at h
            have hl : l = (findAllChild dbl "DataBank").map (fun databank_xml =>
                [("name",
                  match findChild databank_xml "DataBankName" with
                  | some e => PyVal.vElem e
                  | none => PyVal.vNone),
                 ("accession_numbers", PyVal.vList
                  (match findChild databank_xml "AccessionNumberList" with
                   | some anl =>
                       if anl.children.isEmpty then []
                       else (findAllChild anl "AccessionNumber").map
                         (fun a => pyOfOpt a.text)
                   | none => []))]) := by
              simpa [Pure.pure, Except.pure] using h.symm
            subst hl
            intro entry he
            obtain ⟨db, _, rfl⟩ := List.mem_map.mp he
            refine ⟨_, _, rfl, ?_⟩
            cases hfn : findChild db "DataBankName" with
            | some e => exact Or.inl ⟨e, rfl⟩
            | none => exact Or.inr rfl

/-- One joined-mode loop step over an entry whose name is not a string:
either it raises outright (name + "/" with at least one accession number) or
it appends the bare non-string name to the accumulator. -/
theorem dbJoinStep_cases (databank : PyDict)
    (hn : ∀ s, pyGet databank "name" ≠ .vStr s)
    (xs : List PyVal) (hx : pyGet databank "accession_numbers" = .vList xs)
    (acc : List PyVal) :
    dbJoinStep acc databank = .error .typeError ∨
    dbJoinStep acc databank = .ok (acc ++ [pyGet databank "name"]) := by
  unfold dbJoinStep
  rw [hx]
  cases xs with
  | nil => right; rfl
  | cons x xs' =>
      left
      cases hname : pyGet databank "name"
      case vStr s => exact absurd hname (hn s)
      all_goals
        simp only [List.length_cons]
        rw [if_pos (Nat.succ_pos xs'.length)]
        rfl

/-- Folding the joined-mode loop over non-string-named entries and then
`";".join`-ing always raises `TypeError` (provided something non-string is
already present or at least one entry remains). -/
theorem databanksFoldJoin_error :
    ∀ (entries : List PyDict),
      (∀ entry ∈ entries, (∀ s, pyGet entry "name" ≠ .vStr s) ∧
        ∃ xs, pyGet entry "accession_numbers" = .vList xs) →
      ∀ acc, (entries ≠ [] ∨ ∃ v ∈ acc, ∀ s, v ≠ PyVal.vStr s) →
        (do
          let info ← List.foldlM dbJoinStep acc entries
          pyJoin ";" info) = .error .typeError := by
  intro entries
  induction entries with
  | nil =>
      intro _ acc hacc
      rcases hacc with hne | ⟨v, hv, hns⟩
      · exact absurd rfl hne
      · rw [ep_foldlM_nil, ep_ok_bind]
        exact pyJoin_nonstr hv hns ";"
  | cons entryx rest ih =>
      intro hgood acc _
      obtain ⟨hn, xs, hx⟩ := hgood entryx (List.mem_cons_self _ _)
      have hgood' : ∀ entry ∈ rest, (∀ s, pyGet entry "name" ≠ .vStr s) ∧
          ∃ ys, pyGet entry "accession_numbers" = .vList ys :=
        fun entry he => hgood entry (List.mem_cons_of_mem _ he)
      rcases dbJoinStep_cases entryx hn xs hx acc with hstep | hstep
      · rw [ep_foldlM_cons, hstep]
        rfl
      · rw [ep_foldlM_cons, hstep, ep_ok_bind]
        exact ih hgood' (acc ++ [pyGet entryx "name"])
          (Or.inr ⟨pyGet entryx "name", by simp, hn⟩)

/-- C10: every databank sub-record's `"name"` field holds the `DataBankName`
element object itself (or `None`), never its text; consequently, whenever a
citation yields at least one databank entry, the default joined-string
rendering raises `TypeError` instead of producing a `";"`-joined string. -/
theorem c10_databank_name_element :
    (∀ medline l, parse_databank_list medline = .ok l →
      ∀ entry ∈ l,
        (∃ e, pyLookup "name" entry = some (.vElem e)) ∨
        pyLookup "name" entry = some .vNone) ∧
    (∀ medline l, parse_databank_list medline = .ok l → l ≠ [] →
      databanksJoined l = .error .typeError) := by
  constructor
  · intro medline l h entry he
    obtain ⟨nm, xs, rfl, hnm⟩ := parse_databank_list_entries h entry he
    rcases hnm with ⟨e, rfl⟩ | rfl
    · exact Or.inl ⟨e, rfl⟩
    · exact Or.inr rfl
  · intro medline l h hne
    have hgood : ∀ entry ∈ l, (∀ s, pyGet entry "name" ≠ .vStr s) ∧
        ∃ xs, pyGet entry "accession_numbers" = .vList xs := by
      intro entry he
      obtain ⟨nm, xs, rfl, hnm⟩ := parse_databank_list_entries h entry he
      refine ⟨?_, xs, rfl⟩
      rcases hnm with ⟨e, rfl⟩ | rfl <;> intro s hs <;> cases hs
    exact databanksFoldJoin_error l hgood [] (Or.inl hne)

/-- C10 witness: the concrete citation with one `DataBank` — its entry's
name is the element, and the joined-mode rendering raises. -/
theorem c10_databank_name_element_witness :
    ((∃ e, pyLookup "name" c10entry = some (.vElem e)) ∨
      pyLookup "name" c10entry = some .vNone) ∧
    databanksJoined c10list = .error .typeError :=
  ⟨c10_databank_name_element.1 c10med c10list rfl c10entry (List.Mem.head _),
   c10_databank_name_element.2 c10med c10list rfl (List.cons_ne_nil _ _)⟩

end PubmedParser
